import Mathlib

/-!
Shallow embedding of the user-profile REST API (`api/index.js`).

The server keeps two in-memory arrays, `users` (user profiles) and
`usersAuth` (credential records).  Each Express handler is embedded as a
pure Lean function from the relevant store(s) and the parsed request data
to a `Response` together with the updated store(s).  External libraries
(bcrypt, jsonwebtoken, validator.js's `isEmail`) are abstracted as
function parameters, since their code is not part of this repository.

Requests bodies are modelled with `Option` fields: `none` is an absent
JSON field, `some v` a present one.
-/

namespace TestAPI

/-- User profile record, as stored in the `users` array:
`{ id, name, email, age, role, adult }`. -/
structure UserProfile where
  id : Nat
  name : String
  email : String
  age : Int
  role : String
  adult : Bool
deriving Repr, DecidableEq

/-- Credential record, as stored in the `usersAuth` array:
`{ id, email, passwordHash }`. -/
structure AuthUser where
  id : Nat
  email : String
  passwordHash : String
deriving Repr, DecidableEq

/-- Claims embedded in a JWT: `{ id, email }` (issued by `POST /login`). -/
structure TokenClaims where
  id : Nat
  email : String
deriving Repr, DecidableEq

/-- Parsed JSON body of `POST /users` and `PUT /users/:id`.  A `none`
field is absent from the body. -/
structure UserBody where
  name : Option String
  email : Option String
  age : Option Int
  role : Option String
deriving Repr, DecidableEq

/-- One element of `validationResult(req).array()`: `{ msg, param, location }`. -/
structure ValidationError where
  msg : String
  param : String
  location : String
deriving Repr, DecidableEq

/-- JSON response body shapes that the handlers produce. -/
inductive RespBody where
  | user (u : UserProfile)
  | userList (us : List UserProfile)
  | errors (es : List ValidationError)
  | message (m : String)
  | token (t : String)
  | nextId (n : Nat)
  | empty
deriving Repr, DecidableEq

/-- HTTP response: status code plus JSON body. -/
structure Response where
  status : Nat
  body : RespBody
deriving Repr, DecidableEq

/-- Embeds `getNextId`:
`users.length > 0 ? users[users.length - 1].id + 1 : 1`. -/
def getNextId (users : List UserProfile) : Nat :=
  match users.getLast? with
  | some u => u.id + 1
  | none => 1

/-- Embeds `isAdult`: `age >= 18`. -/
def isAdult (age : Int) : Bool :=
  age ≥ 18

/-- The only falsy JS string is the empty string (used by
`optional(\x7b checkFalsy: true \x7d)` and by `!email || !password`). -/
def strFalsy (s : String) : Bool :=
  s = ""

/-- JS falsy test for an optional string value: absent or empty. -/
def optFalsy : Option String → Bool
  | none => true
  | some s => strFalsy s

/-- Chain `body("name").isString().notEmpty().withMessage("Name is required")`
on `POST /users`.  On a missing field both `isString` (default message
"Invalid value") and `notEmpty` fail; validators are not short-circuited. -/
def validateNamePost (name : Option String) : List ValidationError :=
  match name with
  | none =>
    [⟨"Invalid value", "name", "body"⟩, ⟨"Name is required", "name", "body"⟩]
  | some s =>
    if s = "" then [⟨"Name is required", "name", "body"⟩] else []

/-- Chain `body("email").notEmpty().withMessage("Email is required")
.isEmail().withMessage("Valid email format is required")` on `POST /users`.
`isEmail` is validator.js's email grammar, abstracted as a parameter. -/
def validateEmailPost (isEmail : String → Bool) (email : Option String) :
    List ValidationError :=
  match email with
  | none =>
    [⟨"Email is required", "email", "body"⟩,
     ⟨"Valid email format is required", "email", "body"⟩]
  | some s =>
    (if s = "" then [⟨"Email is required", "email", "body"⟩] else []) ++
    (if isEmail s then [] else
      [⟨"Valid email format is required", "email", "body"⟩])

/-- Chain `body("age").isInt(\x7b min: 0, max: 125 \x7d)
.withMessage("Age must be between 0 and 125")` on `POST /users`. -/
def validateAgePost (age : Option Int) : List ValidationError :=
  match age with
  | none => [⟨"Age must be between 0 and 125", "age", "body"⟩]
  | some a =>
    if 0 ≤ a ∧ a ≤ 125 then []
    else [⟨"Age must be between 0 and 125", "age", "body"⟩]

/-- Chain `body("role").isIn(["admin", "user"])
.withMessage("Role must be admin or user")` on `POST /users`. -/
def validateRolePost (role : Option String) : List ValidationError :=
  match role with
  | none => [⟨"Role must be admin or user", "role", "body"⟩]
  | some r =>
    if r = "admin" ∨ r = "user" then []
    else [⟨"Role must be admin or user", "role", "body"⟩]

/-- All `POST /users` validators, in declaration order, every violation
collected. -/
def validatePost (isEmail : String → Bool) (b : UserBody) :
    List ValidationError :=
  validateNamePost b.name ++ validateEmailPost isEmail b.email ++
  validateAgePost b.age ++ validateRolePost b.role

/-- Chain `body("name").optional(\x7b checkFalsy: true \x7d).isString()
.notEmpty().withMessage("Name is required")` on `PUT /users/:id`.
With `checkFalsy: true` a falsy value (the empty string) makes the whole
chain skip, so it produces no error. -/
def validateNamePut (name : Option String) : List ValidationError :=
  match name with
  | none => []
  | some s =>
    if strFalsy s then []
    else if s = "" then [⟨"Name is required", "name", "body"⟩] else []

/-- Chain `body("email").optional(\x7b checkFalsy: true \x7d).notEmpty()
.withMessage("Email is required").isEmail()
.withMessage("Valid email format is required")` on `PUT /users/:id`. -/
def validateEmailPut (isEmail : String → Bool) (email : Option String) :
    List ValidationError :=
  match email with
  | none => []
  | some s =>
    if strFalsy s then []
    else
      (if s = "" then [⟨"Email is required", "email", "body"⟩] else []) ++
      (if isEmail s then [] else
        [⟨"Valid email format is required", "email", "body"⟩])

/-- Chain `body("age").optional(\x7b nullable: true \x7d)
.isInt(\x7b min: 0, max: 125 \x7d).withMessage("Age must be between 0 and 125")`
on `PUT /users/:id`: skipped when absent (or null), checked otherwise. -/
def validateAgePut (age : Option Int) : List ValidationError :=
  match age with
  | none => []
  | some a =>
    if 0 ≤ a ∧ a ≤ 125 then []
    else [⟨"Age must be between 0 and 125", "age", "body"⟩]

/-- Chain `body("role").optional(\x7b checkFalsy: true \x7d)
.isIn(["admin", "user"]).withMessage("Role must be admin or user")`
on `PUT /users/:id`. -/
def validateRolePut (role : Option String) : List ValidationError :=
  match role with
  | none => []
  | some r =>
    if strFalsy r then []
    else if r = "admin" ∨ r = "user" then []
    else [⟨"Role must be admin or user", "role", "body"⟩]

/-- All `PUT /users/:id` validators, in declaration order. -/
def validatePut (isEmail : String → Bool) (b : UserBody) :
    List ValidationError :=
  validateNamePut b.name ++ validateEmailPut isEmail b.email ++
  validateAgePut b.age ++ validateRolePut b.role

/-- Handler of `GET /users`. -/
def getUsers (users : List UserProfile) : Response :=
  ⟨200, .userList users⟩

/-- Handler of `GET /users/:id`:
`users.find((user) => user.id === parseInt(req.params.id))`. -/
def getUserById (users : List UserProfile) (i : Nat) : Response :=
  match users.find? (fun u => u.id = i) with
  | none => ⟨404, .message "User not found"⟩
  | some u => ⟨200, .user u⟩

/-- The `newUser` object literal of the `POST /users` handler: fresh id
from `getNextId()`, body fields, and `adult: isAdult(req.body.age)`.
Validation success guarantees every field is present, so the `getD`
defaults are never reached on the 201 path. -/
def newUserOf (users : List UserProfile) (b : UserBody) : UserProfile :=
  { id := getNextId users
    name := b.name.getD ""
    email := b.email.getD ""
    age := b.age.getD 0
    role := b.role.getD ""
    adult := isAdult (b.age.getD 0) }

/-- Handler of `POST /users` (after the auth middleware): on validation
errors respond 400 with the collected list; otherwise build the new user,
push it and respond 201 with it. -/
def postUsers (isEmail : String → Bool) (users : List UserProfile)
    (b : UserBody) : Response × List UserProfile :=
  let errors := validatePost isEmail b
  if errors ≠ [] then (⟨400, .errors errors⟩, users)
  else
    let newUser := newUserOf users b
    (⟨201, .user newUser⟩, users ++ [newUser])

/-- Replace the first element whose id is `i` (the JS handler mutates the
object returned by `users.find(...)` in place). -/
def setFirst (users : List UserProfile) (i : Nat) (u' : UserProfile) :
    List UserProfile :=
  match users with
  | [] => []
  | u :: rest => if u.id = i then u' :: rest else u :: setFirst rest i u'

/-- Partial merge of `PUT /users/:id`: each body field overwrites the
stored one only when present (`!== undefined`), then
`user.adult = isAdult(user.age)` is recomputed from the final age. -/
def mergeUser (u : UserProfile) (b : UserBody) : UserProfile :=
  let merged : UserProfile :=
    { u with
      name := b.name.getD u.name
      email := b.email.getD u.email
      age := b.age.getD u.age
      role := b.role.getD u.role }
  { merged with adult := isAdult merged.age }

/-- Handler of `PUT /users/:id` (after the auth middleware): 400 with all
violations on validation failure, 404 when no user has the id, otherwise
partial merge, recompute `adult`, respond 200 with the updated user. -/
def putUserById (isEmail : String → Bool) (users : List UserProfile)
    (i : Nat) (b : UserBody) : Response × List UserProfile :=
  let errors := validatePut isEmail b
  if errors ≠ [] then (⟨400, .errors errors⟩, users)
  else
    match users.find? (fun u => u.id = i) with
    | none => (⟨404, .message "User not found"⟩, users)
    | some u =>
      let u' := mergeUser u b
      (⟨200, .user u'⟩, setFirst users i u')

/-- Handler of `DELETE /users/:id` (after the auth middleware):
`findIndex` then `splice(userIndex, 1)`; 404 when the id is absent. -/
def deleteUserById (users : List UserProfile) (i : Nat) :
    Response × List UserProfile :=
  match users.findIdx? (fun u => u.id = i) with
  | none => (⟨404, .message "User not found"⟩, users)
  | some idx => (⟨204, .empty⟩, users.eraseIdx idx)

/-- Handler of `DELETE /users` (after the auth middleware): `users = []`. -/
def deleteAllUsers (_users : List UserProfile) :
    Response × List UserProfile :=
  (⟨204, .empty⟩, [])

/-- Handler of `GET /next-id`. -/
def nextIdHandler (users : List UserProfile) : Response :=
  ⟨200, .nextId (getNextId users)⟩

/-- Splits a character list at every occurrence of `c`; adjacent
occurrences yield empty pieces and no piece contains `c`. -/
def splitOnChar (c : Char) : List Char → List (List Char)
  | [] => [[]]
  | x :: xs =>
    let r := splitOnChar c xs
    if x = c then [] :: r
    else
      match r with
      | [] => [[x]]
      | y :: ys => (x :: y) :: ys

/-- JS `s.split(" ")`: split at every single space, keeping empty pieces
(`"Bearer ".split(" ")` is `["Bearer", ""]`, `"".split(" ")` is `[""]`). -/
def jsSplitSpace (s : String) : List String :=
  (splitOnChar ' ' s.toList).map (fun l => String.mk l)

/-- Token extraction of the `authenticateToken` middleware:
`authHeader && authHeader.split(" ")[1]`, with the result `none` exactly
when the extracted token is JS-falsy (header absent, no second
space-separated part, or an empty second part). -/
def extractToken (authHeader : Option String) : Option String :=
  match authHeader with
  | none => none
  | some h =>
    match (jsSplitSpace h).get? 1 with
    | none => none
    | some t => if t = "" then none else some t

/-- Embeds the `authenticateToken` middleware.  `verify` abstracts
`jwt.verify(token, JWT_SECRET, cb)`: `none` means the callback got an
error.  `Except.ok` carries the decoded claims handed to the handler. -/
def authenticateToken (verify : String → Option TokenClaims)
    (authHeader : Option String) : Except Response TokenClaims :=
  match extractToken authHeader with
  | none => .error ⟨401, .message "No token provided"⟩
  | some t =>
    match verify t with
    | none => .error ⟨403, .message "Invalid token"⟩
    | some user => .ok user

/-- Handler of `POST /register`.  `hash` abstracts
`bcrypt.hash(password, 10)`.  Returns the response and the updated
`usersAuth` array; the `users` array is only read (by `getNextId`). -/
def register (hash : String → String) (users : List UserProfile)
    (usersAuth : List AuthUser) (email password : Option String) :
    Response × List AuthUser :=
  if optFalsy email ∨ optFalsy password then
    (⟨400, .message "Email and password are required"⟩, usersAuth)
  else
    let e := email.getD ""
    let p := password.getD ""
    match usersAuth.find? (fun u => u.email = e) with
    | some _ => (⟨400, .message "Email already exists"⟩, usersAuth)
    | none =>
      let newUser : AuthUser :=
        { id := getNextId users, email := e, passwordHash := hash p }
      (⟨201, .message "User registered"⟩, usersAuth ++ [newUser])

/-- Handler of `POST /login`.  `compare` abstracts
`bcrypt.compare(password, hash)`; `sign` abstracts
`jwt.sign(\x7b id, email \x7d, JWT_SECRET, \x7b expiresIn: "1h" \x7d)`. -/
def login (compare : String → String → Bool) (sign : Nat → String → String)
    (usersAuth : List AuthUser) (email password : Option String) : Response :=
  if optFalsy email ∨ optFalsy password then
    ⟨400, .message "Email and password are required"⟩
  else
    let e := email.getD ""
    let p := password.getD ""
    match usersAuth.find? (fun u => u.email = e) with
    | none => ⟨401, .message "Invalid email or password"⟩
    | some u =>
      if compare p u.passwordHash then ⟨200, .token (sign u.id u.email)⟩
      else ⟨401, .message "Invalid email or password"⟩

/-! Concrete sample data, used to instantiate the theorems below on
closed inputs. -/

/-- Sample stored profile with id 1 (the profile `POST /users` creates
from `bodyAlice` on an empty store). -/
def alice : UserProfile :=
  ⟨1, "Alice", "a@b.com", 20, "admin", true⟩

/-- Sample stored profile with id 2. -/
def bob : UserProfile :=
  ⟨2, "Bob", "b@b.com", 17, "user", false⟩

/-- Sample stored profile with id 3. -/
def carol : UserProfile :=
  ⟨3, "Carol", "c@b.com", 30, "user", true⟩

/-- A create body passing every `POST /users` validator (for any `isEmail`
accepting its email). -/
def bodyAlice : UserBody :=
  ⟨some "Alice", some "a@b.com", some 20, some "admin"⟩

/-- The body with every field absent. -/
def emptyBody : UserBody :=
  ⟨none, none, none, none⟩

/-- An update body supplying only `age: 17`. -/
def bodyAge17 : UserBody :=
  ⟨none, none, some 17, none⟩

/-- An update body supplying only an empty-string `name`. -/
def bodyEmptyName : UserBody :=
  ⟨some "", none, none, none⟩

/-- An update body whose age is out of range. -/
def bodyAge200 : UserBody :=
  ⟨none, none, some 200, none⟩

/-- The profile `alice` after an update that set `age` to 17 (and hence
`adult` to false). -/
def aliceAt17 : UserProfile :=
  ⟨1, "Alice", "a@b.com", 17, "admin", false⟩

/-- Sample credential record. -/
def authX : AuthUser :=
  ⟨1, "x@y", "Hpw"⟩

/-! Helper lemmas characterizing the handlers, shared by the claim
theorems below. -/

/-- `isAdult` holds exactly on ages of at least 18. -/
theorem isAdult_iff (a : Int) : isAdult a = true ↔ 18 ≤ a := by
  simp [isAdult]

/-- A failing `POST /users` validation yields 400 with the full error
list and leaves the store unchanged. -/
theorem postUsers_failure (isEmail : String → Bool) (s : List UserProfile)
    (b : UserBody) (hv : validatePost isEmail b ≠ []) :
    postUsers isEmail s b = (⟨400, .errors (validatePost isEmail b)⟩, s) := by
  simp [postUsers, hv]

/-- A passing `POST /users` validation appends `newUserOf` and answers
201 with it. -/
theorem postUsers_success (isEmail : String → Bool) (s : List UserProfile)
    (b : UserBody) (hv : validatePost isEmail b = []) :
    postUsers isEmail s b =
      (⟨201, .user (newUserOf s b)⟩, s ++ [newUserOf s b]) := by
  simp [postUsers, hv]

/-- A failing `PUT /users/:id` validation yields 400 with the full error
list and leaves the store unchanged. -/
theorem putUserById_failure (isEmail : String → Bool) (s : List UserProfile)
    (i : Nat) (b : UserBody) (hv : validatePut isEmail b ≠ []) :
    putUserById isEmail s i b =
      (⟨400, .errors (validatePut isEmail b)⟩, s) := by
  simp [putUserById, hv]

/-- A passing `PUT /users/:id` on a present id merges the body into the
found user and stores the result in place. -/
theorem putUserById_success (isEmail : String → Bool) (s : List UserProfile)
    (i : Nat) (b : UserBody) (u : UserProfile)
    (hv : validatePut isEmail b = [])
    (hf : s.find? (fun v => v.id = i) = some u) :
    putUserById isEmail s i b =
      (⟨200, .user (mergeUser u b)⟩, setFirst s i (mergeUser u b)) := by
  simp [putUserById, hv, hf]

/-- A passing `PUT /users/:id` on an absent id answers 404 and leaves the
store unchanged. -/
theorem putUserById_notFound (isEmail : String → Bool)
    (s : List UserProfile) (i : Nat) (b : UserBody)
    (hv : validatePut isEmail b = [])
    (hf : s.find? (fun v => v.id = i) = none) :
    putUserById isEmail s i b = (⟨404, .message "User not found"⟩, s) := by
  simp [putUserById, hv, hf]

/-- When every stored id differs from `i`, the profile lookup finds
nothing. -/
theorem find?_id_eq_none (s : List UserProfile) (i : Nat)
    (hid : ∀ u ∈ s, u.id ≠ i) : s.find? (fun u => u.id = i) = none := by
  rw [List.find?_eq_none]
  intro u hu
  simpa using hid u hu

/-- When every stored id differs from `i`, `findIndex` finds nothing. -/
theorem findIdx?_id_eq_none (s : List UserProfile) (i : Nat)
    (hid : ∀ u ∈ s, u.id ≠ i) : s.findIdx? (fun u => u.id = i) = none := by
  rw [List.findIdx?_eq_none_iff]
  intro u hu
  simpa using hid u hu

/-- The replacement written by `setFirst` is present in the result
whenever the lookup that preceded it found a user. -/
theorem mem_setFirst (s : List UserProfile) (i : Nat) (u' : UserProfile)
    (h : s.find? (fun v => v.id = i) ≠ none) : u' ∈ setFirst s i u' := by
  induction s with
  | nil => simp [List.find?] at h
  | cons v rest ih =>
    by_cases hv : v.id = i
    · simp [setFirst, hv]
    · rw [List.find?_cons] at h
      have hrest : rest.find? (fun w => w.id = i) ≠ none := by
        simpa [hv] using h
      simp [setFirst, hv, ih hrest]

/-- The update handler recomputes `adult` from the merged user's final
age. -/
theorem mergeUser_adult (u : UserProfile) (b : UserBody) :
    (mergeUser u b).adult = isAdult ((mergeUser u b).age) := rfl

/-- When every stored credential email differs from `e`, the credential
lookup finds nothing. -/
theorem find?_email_eq_none (auth : List AuthUser) (e : String)
    (hall : ∀ u ∈ auth, u.email ≠ e) :
    auth.find? (fun u => u.email = e) = none := by
  rw [List.find?_eq_none]
  intro v hv
  simpa using hall v hv

/-- A registration with fresh non-empty email and non-empty password
appends one credential record built from `getNextId` over the profile
store and the password hash. -/
theorem register_success (hash : String → String) (users : List UserProfile)
    (auth : List AuthUser) (e p : String) (he : e ≠ "") (hp : p ≠ "")
    (hnone : auth.find? (fun u => u.email = e) = none) :
    register hash users auth (some e) (some p) =
      (⟨201, .message "User registered"⟩,
        auth ++ [⟨getNextId users, e, hash p⟩]) := by
  simp [register, optFalsy, strFalsy, he, hp, hnone]

/-- A registration whose email is already stored answers 400 and leaves
the credential store unchanged. -/
theorem register_duplicate (hash : String → String)
    (users : List UserProfile) (auth : List AuthUser) (e p : String)
    (he : e ≠ "") (hp : p ≠ "")
    (hdup : ∃ u ∈ auth, u.email = e) :
    register hash users auth (some e) (some p) =
      (⟨400, .message "Email already exists"⟩, auth) := by
  have hsome : (auth.find? (fun u => u.email = e)).isSome := by
    rw [List.find?_isSome]
    obtain ⟨u, hu, hue⟩ := hdup
    exact ⟨u, hu, by simpa using hue⟩
  obtain ⟨w, hw⟩ := Option.isSome_iff_exists.mp hsome
  simp [register, optFalsy, strFalsy, he, hp, hw]

/-- C1, counterexample: in the state `[alice, carol]` (ids 1 and 3,
so 3 is the highest id present), deleting the user with id 3 and then
creating a profile with a valid body assigns id 2, not 3 — the freed
highest id is NOT reused, refuting the claim's consequence. -/
theorem C1_counterexample :
    (∀ v ∈ ([alice, carol] : List UserProfile), v.id ≤ 3) ∧
    deleteUserById [alice, carol] 3 = (⟨204, .empty⟩, [alice]) ∧
    postUsers (fun _ => true) [alice] bodyAlice =
      (⟨201, .user ⟨2, "Alice", "a@b.com", 20, "admin", true⟩⟩,
        [alice, ⟨2, "Alice", "a@b.com", 20, "admin", true⟩]) ∧
    (2 : Nat) ≠ 3 := by
  decide

/-- C1, amended: the id assigned by a successful create, and the value
reported by `GET /next-id`, is the id of the last currently present
element plus 1 (1 on an empty collection); after deleting the last
element `u` (in particular the element with the highest id, when ids
are in order) the next create receives `getNextId` of the remaining
list — so it reuses `u.id` exactly when `u.id` equals the remaining
last element's id plus 1, not in general. -/
theorem C1_next_id_assignment (isEmail : String → Bool)
    (s' : List UserProfile) (u : UserProfile) (b : UserBody)
    (hvalid : validatePost isEmail b = [])
    (hfresh : ∀ v ∈ s', v.id ≠ u.id) :
    getNextId (s' ++ [u]) = u.id + 1 ∧
    nextIdHandler (s' ++ [u]) = ⟨200, .nextId (u.id + 1)⟩ ∧
    deleteUserById (s' ++ [u]) u.id = (⟨204, .empty⟩, s') ∧
    ∃ newUser : UserProfile,
      postUsers isEmail s' b = (⟨201, .user newUser⟩, s' ++ [newUser]) ∧
      newUser.id = getNextId s' ∧
      (newUser.id = u.id ↔ getNextId s' = u.id) := by
  have hnext : getNextId (s' ++ [u]) = u.id + 1 := by
    simp [getNextId, List.getLast?_concat]
  refine ⟨hnext, by simp [nextIdHandler, hnext], ?_, ?_⟩
  · have h1 : s'.findIdx? (fun v => v.id = u.id) = none := by
      rw [List.findIdx?_eq_none_iff]
      intro v hv
      simpa using hfresh v hv
    have hidx : (s' ++ [u]).findIdx? (fun v => v.id = u.id) =
        some s'.length := by
      rw [List.findIdx?_append, h1]
      simp [List.findIdx?_cons]
    simp [deleteUserById, hidx,
      List.eraseIdx_append_of_length_le (Nat.le_refl s'.length)]
  · exact ⟨newUserOf s' b, postUsers_success isEmail s' b hvalid, rfl,
      Iff.rfl⟩

/-- C1, witness for the amended theorem: on `[alice, bob]` the next id is
3 = bob.id + 1; deleting bob and creating again assigns `getNextId
[alice] = 2 = bob.id`, so here the freed id IS reused because bob's id
was alice's id plus 1. -/
theorem C1_next_id_assignment_witness :
    getNextId ([alice] ++ [bob]) = bob.id + 1 ∧
    nextIdHandler ([alice] ++ [bob]) = ⟨200, .nextId (bob.id + 1)⟩ ∧
    deleteUserById ([alice] ++ [bob]) bob.id = (⟨204, .empty⟩, [alice]) ∧
    ∃ newUser : UserProfile,
      postUsers (fun _ => true) [alice] bodyAlice =
        (⟨201, .user newUser⟩, [alice] ++ [newUser]) ∧
      newUser.id = getNextId [alice] ∧
      (newUser.id = bob.id ↔ getNextId [alice] = bob.id) :=
  C1_next_id_assignment (fun _ => true) [alice] bob bodyAlice (by decide)
    (by decide)

/-- C2: after every successful create (201) and after every successful
update (200) — including an update whose body does not contain `age` —
the profile stored and returned satisfies `adult = (age >= 18)`, with
`adult` derived from the profile's final age after the partial merge. -/
theorem C2_adult_invariant (isEmail : String → Bool) (s : List UserProfile)
    (b : UserBody) (i : Nat) (u : UserProfile) :
    ((postUsers isEmail s b).1 = ⟨201, .user u⟩ →
      (u.adult = true ↔ 18 ≤ u.age) ∧
      (postUsers isEmail s b).2 = s ++ [u]) ∧
    ((putUserById isEmail s i b).1 = ⟨200, .user u⟩ →
      (u.adult = true ↔ 18 ≤ u.age) ∧
      u ∈ (putUserById isEmail s i b).2) := by
  constructor
  · intro h
    by_cases hv : validatePost isEmail b = []
    · rw [postUsers_success isEmail s b hv] at h ⊢
      simp only [Response.mk.injEq, RespBody.user.injEq, true_and] at h
      subst h
      refine ⟨?_, rfl⟩
      simpa [newUserOf] using isAdult_iff (b.age.getD 0)
    · rw [postUsers_failure isEmail s b hv] at h
      simp at h
  · intro h
    by_cases hv : validatePut isEmail b = []
    · cases hf : s.find? (fun v => v.id = i) with
      | none =>
        rw [putUserById_notFound isEmail s i b hv hf] at h
        simp at h
      | some v =>
        rw [putUserById_success isEmail s i b v hv hf] at h ⊢
        simp only [Response.mk.injEq, RespBody.user.injEq, true_and] at h
        subst h
        refine ⟨?_, mem_setFirst s i _ (by simp [hf])⟩
        rw [mergeUser_adult v b]
        exact isAdult_iff _
    · rw [putUserById_failure isEmail s i b hv] at h
      simp at h

/-- C2, witness: creating from `bodyAlice` on the empty store yields
`alice` with `adult = true` at age 20, and updating `alice` with only
`age: 17` yields `aliceAt17` with `adult = false` recomputed from the
new age. -/
theorem C2_adult_invariant_witness :
    ((alice.adult = true ↔ 18 ≤ alice.age) ∧
      (postUsers (fun _ => true) [] bodyAlice).2 = [] ++ [alice]) ∧
    ((aliceAt17.adult = true ↔ 18 ≤ aliceAt17.age) ∧
      aliceAt17 ∈ (putUserById (fun _ => true) [alice] 1 bodyAge17).2) :=
  ⟨(C2_adult_invariant (fun _ => true) [] bodyAlice 1 alice).1 (by decide),
   (C2_adult_invariant (fun _ => true) [alice] bodyAge17 1 aliceAt17).2
     (by decide)⟩

/-- C3, counterexample: a `PUT /users/1` body with `name: ""` passes
validation (the `optional(checkFalsy)` marker SKIPS the chain on falsy
values), so the request answers 200 — not 400 as claimed — and stores
the empty name. -/
theorem C3_counterexample :
    validatePut (fun _ => true) bodyEmptyName = [] ∧
    (putUserById (fun _ => true) [alice] 1 bodyEmptyName).1.status = 200 ∧
    (putUserById (fun _ => true) [alice] 1 bodyEmptyName).1.status ≠ 400 ∧
    putUserById (fun _ => true) [alice] 1 bodyEmptyName =
      (⟨200, .user ⟨1, "", "a@b.com", 20, "admin", true⟩⟩,
        [⟨1, "", "a@b.com", 20, "admin", true⟩]) := by
  decide

/-- C3, amended: in the update validation the `name` field is optional
with `checkFalsy: true`, so a present empty-string name is skipped by
validation rather than failing: the update succeeds (200 on a present
id) and the empty string is stored as the profile's name. -/
theorem C3_put_empty_name_accepted (isEmail : String → Bool)
    (s : List UserProfile) (i : Nat) (u : UserProfile)
    (hu : s.find? (fun v => v.id = i) = some u) :
    validatePut isEmail bodyEmptyName = [] ∧
    putUserById isEmail s i bodyEmptyName =
      (⟨200, .user { u with name := "", adult := isAdult u.age }⟩,
        setFirst s i { u with name := "", adult := isAdult u.age }) := by
  have hv : validatePut isEmail bodyEmptyName = [] := rfl
  refine ⟨hv, ?_⟩
  have hm : mergeUser u bodyEmptyName =
      { u with name := "", adult := isAdult u.age } := rfl
  rw [putUserById_success isEmail s i bodyEmptyName u hv hu, hm]

/-- C3, witness for the amended theorem: updating `alice` with
`name: ""` succeeds and overwrites her name with the empty string. -/
theorem C3_put_empty_name_accepted_witness :
    validatePut (fun _ => true) bodyEmptyName = [] ∧
    putUserById (fun _ => true) [alice] 1 bodyEmptyName =
      (⟨200, .user { alice with name := "", adult := isAdult alice.age }⟩,
        setFirst [alice] 1
          { alice with name := "", adult := isAdult alice.age }) :=
  C3_put_empty_name_accepted (fun _ => true) [alice] 1 alice (by decide)

/-- C4: whenever any validation rule fails on a `POST /users` or
`PUT /users/:id` body, the handler answers 400 carrying the full
collected list of field violations, and the user-profile collection is
returned completely unchanged. -/
theorem C4_validation_atomicity (isEmail : String → Bool)
    (s : List UserProfile) (b c : UserBody) (i : Nat) :
    (validatePost isEmail b ≠ [] →
      postUsers isEmail s b =
        (⟨400, .errors (validatePost isEmail b)⟩, s)) ∧
    (validatePut isEmail c ≠ [] →
      putUserById isEmail s i c =
        (⟨400, .errors (validatePut isEmail c)⟩, s)) :=
  ⟨postUsers_failure isEmail s b, putUserById_failure isEmail s i c⟩

/-- C4, witness: an all-absent create body and an out-of-range update
age each produce a 400 with the collected violations and leave the
store `[alice]` untouched. -/
theorem C4_validation_atomicity_witness :
    postUsers (fun _ => false) [alice] emptyBody =
      (⟨400, .errors (validatePost (fun _ => false) emptyBody)⟩,
        [alice]) ∧
    putUserById (fun _ => false) [alice] 1 bodyAge200 =
      (⟨400, .errors (validatePut (fun _ => false) bodyAge200)⟩,
        [alice]) :=
  ⟨(C4_validation_atomicity (fun _ => false) [alice] emptyBody bodyAge200
      1).1 (by decide),
   (C4_validation_atomicity (fun _ => false) [alice] emptyBody bodyAge200
      1).2 (by decide)⟩

/-- C5: on a protected route, a request from which no token can be
extracted (absent Authorization header, or a scheme without a second
space-separated part) is answered 401 "No token provided"; a present
token that `jwt.verify` rejects is answered 403 "Invalid token"; the
middleware never produces the 401 status with the invalid-token message
nor the 403 status with the no-token message, so the two failures are
never conflated. -/
theorem C5_auth_distinction (verify : String → Option TokenClaims)
    (h : Option String) :
    (extractToken h = none →
      authenticateToken verify h =
        .error ⟨401, .message "No token provided"⟩) ∧
    (∀ t, extractToken h = some t → verify t = none →
      authenticateToken verify h =
        .error ⟨403, .message "Invalid token"⟩) ∧
    authenticateToken verify h ≠
      .error ⟨401, .message "Invalid token"⟩ ∧
    authenticateToken verify h ≠
      .error ⟨403, .message "No token provided"⟩ := by
  refine ⟨?_, ?_, ?_, ?_⟩
  · intro hn
    simp [authenticateToken, hn]
  · intro t ht hv
    simp [authenticateToken, ht, hv]
  · cases hx : extractToken h with
    | none => simp [authenticateToken, hx]
    | some t => cases hv : verify t <;> simp [authenticateToken, hx, hv]
  · cases hx : extractToken h with
    | none => simp [authenticateToken, hx]
    | some t => cases hv : verify t <;> simp [authenticateToken, hx, hv]

/-- C5, witness: with a verifier rejecting everything, an absent header
gives 401 "No token provided" while the header "Bearer abc" gives 403
"Invalid token". -/
theorem C5_auth_distinction_witness :
    authenticateToken (fun _ => none) none =
      .error ⟨401, .message "No token provided"⟩ ∧
    authenticateToken (fun _ => none) (some "Bearer abc") =
      .error ⟨403, .message "Invalid token"⟩ :=
  ⟨(C5_auth_distinction (fun _ => none) none).1 rfl,
   (C5_auth_distinction (fun _ => none) (some "Bearer abc")).2.1 "abc"
     (by decide) rfl⟩

/-- C6: for a login with non-empty email and password, an unregistered
email and a failing password verification produce the very same
response, 401 with message "Invalid email or password"; a passing
verification issues a token. -/
theorem C6_login_uniform_failure (compare : String → String → Bool)
    (sign : Nat → String → String) (auth : List AuthUser) (e p : String)
    (he : e ≠ "") (hp : p ≠ "") :
    (auth.find? (fun u => u.email = e) = none →
      login compare sign auth (some e) (some p) =
        ⟨401, .message "Invalid email or password"⟩) ∧
    (∀ u, auth.find? (fun v => v.email = e) = some u →
      compare p u.passwordHash = false →
      login compare sign auth (some e) (some p) =
        ⟨401, .message "Invalid email or password"⟩) ∧
    (∀ u, auth.find? (fun v => v.email = e) = some u →
      compare p u.passwordHash = true →
      login compare sign auth (some e) (some p) =
        ⟨200, .token (sign u.id u.email)⟩) := by
  refine ⟨?_, ?_, ?_⟩
  · intro hf
    simp [login, optFalsy, strFalsy, he, hp, hf]
  · intro u hf hc
    simp [login, optFalsy, strFalsy, he, hp, hf, hc]
  · intro u hf hc
    simp [login, optFalsy, strFalsy, he, hp, hf, hc]

/-- C6, witness: the unregistered-email failure and the wrong-password
failure against the stored record `authX` are the identical response,
and a matching password yields the signed token. -/
theorem C6_login_uniform_failure_witness :
    login (fun _ _ => false) (fun _ _ => "tok") [] (some "x@y")
        (some "pw") = ⟨401, .message "Invalid email or password"⟩ ∧
    login (fun _ _ => false) (fun _ _ => "tok") [authX] (some "x@y")
        (some "pw") = ⟨401, .message "Invalid email or password"⟩ ∧
    login (fun _ _ => true) (fun _ _ => "tok") [authX] (some "x@y")
        (some "pw") = ⟨200, .token "tok"⟩ :=
  ⟨(C6_login_uniform_failure (fun _ _ => false) (fun _ _ => "tok") []
      "x@y" "pw" (by decide) (by decide)).1 rfl,
   (C6_login_uniform_failure (fun _ _ => false) (fun _ _ => "tok")
      [authX] "x@y" "pw" (by decide) (by decide)).2.1 authX (by decide)
     rfl,
   (C6_login_uniform_failure (fun _ _ => true) (fun _ _ => "tok")
      [authX] "x@y" "pw" (by decide) (by decide)).2.2 authX (by decide)
     rfl⟩

/-- C7: registering an already-stored email answers 400 "Email already
exists" with the credential store unchanged; registering a fresh
non-empty email with a non-empty password appends exactly one record
holding the password hash (not the plaintext) and answers 201 with a
plain message carrying no hash. -/
theorem C7_register_conflict (hash : String → String)
    (users : List UserProfile) (auth : List AuthUser) (e p : String)
    (he : e ≠ "") (hp : p ≠ "") :
    ((∃ u ∈ auth, u.email = e) →
      register hash users auth (some e) (some p) =
        (⟨400, .message "Email already exists"⟩, auth)) ∧
    ((∀ u ∈ auth, u.email ≠ e) →
      register hash users auth (some e) (some p) =
        (⟨201, .message "User registered"⟩,
          auth ++ [⟨getNextId users, e, hash p⟩])) := by
  constructor
  · exact fun hdup => register_duplicate hash users auth e p he hp hdup
  · intro hall
    exact register_success hash users auth e p he hp
      (by rw [List.find?_eq_none]; intro v hv; simpa using hall v hv)

/-- C7, witness: re-registering the email of `authX` is refused with the
store unchanged, and registering it on an empty store appends the
hashed record. -/
theorem C7_register_conflict_witness :
    register (fun _ => "HASH") [] [authX] (some "x@y") (some "pw") =
      (⟨400, .message "Email already exists"⟩, [authX]) ∧
    register (fun _ => "HASH") [] [] (some "x@y") (some "pw") =
      (⟨201, .message "User registered"⟩,
        [] ++ [⟨getNextId [], "x@y", (fun _ => "HASH") "pw"⟩]) :=
  ⟨(C7_register_conflict (fun _ => "HASH") [] [authX] "x@y" "pw"
      (by decide) (by decide)).1 (by decide),
   (C7_register_conflict (fun _ => "HASH") [] [] "x@y" "pw" (by decide)
      (by decide)).2 (by decide)⟩

/-- C8: for an id not present in the collection, `GET`, `PUT` (with a
body passing validation) and `DELETE` on `/users/:id` each answer 404
with the fixed message "User not found" and leave the collection
unchanged; in particular a repeated `DELETE` on the still-absent id
answers 404 again. -/
theorem C8_missing_id_not_found (isEmail : String → Bool)
    (s : List UserProfile) (i : Nat) (b : UserBody)
    (hid : ∀ u ∈ s, u.id ≠ i) (hb : validatePut isEmail b = []) :
    getUserById s i = ⟨404, .message "User not found"⟩ ∧
    putUserById isEmail s i b = (⟨404, .message "User not found"⟩, s) ∧
    deleteUserById s i = (⟨404, .message "User not found"⟩, s) ∧
    deleteUserById (deleteUserById s i).2 i =
      (⟨404, .message "User not found"⟩, s) := by
  have hf := find?_id_eq_none s i hid
  have hfi := findIdx?_id_eq_none s i hid
  have hdel : deleteUserById s i =
      (⟨404, .message "User not found"⟩, s) := by
    simp [deleteUserById, hfi]
  refine ⟨by simp [getUserById, hf],
    putUserById_notFound isEmail s i b hb hf, hdel, ?_⟩
  rw [hdel]
  exact hdel

/-- C8, witness: on the store `[alice]` the absent id 2 gives 404 for
get, update, delete, and again for a second delete. -/
theorem C8_missing_id_not_found_witness :
    getUserById [alice] 2 = ⟨404, .message "User not found"⟩ ∧
    putUserById (fun _ => true) [alice] 2 emptyBody =
      (⟨404, .message "User not found"⟩, [alice]) ∧
    deleteUserById [alice] 2 =
      (⟨404, .message "User not found"⟩, [alice]) ∧
    deleteUserById (deleteUserById [alice] 2).2 2 =
      (⟨404, .message "User not found"⟩, [alice]) :=
  C8_missing_id_not_found (fun _ => true) [alice] 2 emptyBody
    (by decide) (by decide)

/-- C9: creating from a valid body and then fetching the id the create
answered with returns exactly the representation the create returned,
provided the assigned id is fresh for the current state (true of every
state the API itself can reach, where ids increase left to right). -/
theorem C9_create_get_roundtrip (isEmail : String → Bool)
    (s : List UserProfile) (b : UserBody)
    (hvalid : validatePost isEmail b = [])
    (hfresh : ∀ u ∈ s, u.id ≠ getNextId s) :
    ∃ newUser : UserProfile,
      postUsers isEmail s b = (⟨201, .user newUser⟩, s ++ [newUser]) ∧
      getUserById (postUsers isEmail s b).2 newUser.id =
        ⟨200, .user newUser⟩ := by
  refine ⟨newUserOf s b, postUsers_success isEmail s b hvalid, ?_⟩
  rw [postUsers_success isEmail s b hvalid]
  have hf : s.find? (fun u => u.id = (newUserOf s b).id) = none :=
    find?_id_eq_none s (newUserOf s b).id
      (by intro u hu; simpa [newUserOf] using hfresh u hu)
  simp [getUserById, List.find?_append, hf, List.find?_singleton]

/-- C9, witness: on the empty store, creating from `bodyAlice` and then
fetching the returned id yields the same representation back. -/
theorem C9_create_get_roundtrip_witness :
    ∃ newUser : UserProfile,
      postUsers (fun _ => true) [] bodyAlice =
        (⟨201, .user newUser⟩, [] ++ [newUser]) ∧
      getUserById (postUsers (fun _ => true) [] bodyAlice).2 newUser.id =
        ⟨200, .user newUser⟩ :=
  C9_create_get_roundtrip (fun _ => true) [] bodyAlice (by decide)
    (by decide)

/-- C10: every successful registration takes its id from the profile
store's sequence rule `getNextId users`, ignoring existing credential
records; two successive registrations with distinct fresh emails while
the profile store is unchanged therefore append records carrying the
same id, so credential ids are not unique. -/
theorem C10_register_id_from_profile_sequence (hash : String → String)
    (users : List UserProfile) (auth : List AuthUser)
    (e1 e2 p1 p2 : String) (he1 : e1 ≠ "") (he2 : e2 ≠ "")
    (hp1 : p1 ≠ "") (hp2 : p2 ≠ "") (hne : e2 ≠ e1)
    (hf1 : ∀ u ∈ auth, u.email ≠ e1)
    (hf2 : ∀ u ∈ auth, u.email ≠ e2) :
    register hash users auth (some e1) (some p1) =
      (⟨201, .message "User registered"⟩,
        auth ++ [⟨getNextId users, e1, hash p1⟩]) ∧
    register hash users (auth ++ [⟨getNextId users, e1, hash p1⟩])
        (some e2) (some p2) =
      (⟨201, .message "User registered"⟩,
        auth ++ [⟨getNextId users, e1, hash p1⟩,
          ⟨getNextId users, e2, hash p2⟩]) ∧
    (AuthUser.mk (getNextId users) e1 (hash p1)).id =
      (AuthUser.mk (getNextId users) e2 (hash p2)).id := by
  have h1 := register_success hash users auth e1 p1 he1 hp1
    (find?_email_eq_none auth e1 hf1)
  have hn2 : (auth ++
      [(⟨getNextId users, e1, hash p1⟩ : AuthUser)]).find?
      (fun u => u.email = e2) = none := by
    rw [List.find?_append, find?_email_eq_none auth e2 hf2]
    simp [List.find?_singleton, Ne.symm hne]
  have h2 := register_success hash users
    (auth ++ [⟨getNextId users, e1, hash p1⟩]) e2 p2 he2 hp2 hn2
  refine ⟨h1, ?_, rfl⟩
  rw [h2, List.append_assoc]
  rfl

/-- C10, witness: with the profile store `[alice]` fixed, registering
"x@y" and then "z@w" both append records with id `getNextId [alice]`
(that is, 2), so the two credential ids coincide. -/
theorem C10_register_id_from_profile_sequence_witness :
    register (fun _ => "HASH") [alice] [] (some "x@y") (some "pw") =
      (⟨201, .message "User registered"⟩,
        [] ++ [⟨getNextId [alice], "x@y", (fun _ => "HASH") "pw"⟩]) ∧
    register (fun _ => "HASH") [alice]
        ([] ++ [⟨getNextId [alice], "x@y", (fun _ => "HASH") "pw"⟩])
        (some "z@w") (some "pw") =
      (⟨201, .message "User registered"⟩,
        [] ++ [⟨getNextId [alice], "x@y", (fun _ => "HASH") "pw"⟩,
          ⟨getNextId [alice], "z@w", (fun _ => "HASH") "pw"⟩]) ∧
    (AuthUser.mk (getNextId [alice]) "x@y"
        ((fun _ => "HASH") "pw")).id =
      (AuthUser.mk (getNextId [alice]) "z@w"
        ((fun _ => "HASH") "pw")).id :=
  C10_register_id_from_profile_sequence (fun _ => "HASH") [alice] []
    "x@y" "z@w" "pw" "pw" (by decide) (by decide) (by decide)
    (by decide) (by decide) (by decide) (by decide)

end TestAPI
